import Mathlib

/-!
Shallow embedding of the Front Door cross-field configuration validator
(`FrontdoorSettings` in
`azurerm/internal/services/frontdoor/validate/validate.go`) together with
theorems about its behaviour.

The Go function reads the configuration out of a `*schema.ResourceDiff` as
generic nested maps and lists; here the same tree is modelled as typed
records (the spec guarantees the shape is pre-validated upstream).  An
optional sub-block that the Go code represents as a `[]interface{}` of
length 0 or 1 is modelled as an `Option`; the validator returns
`Option Violation` where `none` is success and `some v` is the single
first violation, mirroring the Go `error` return.
-/

namespace Frontdoor

/-- TLS block `custom_https_configuration` of a frontend endpoint
(fields read at validate.go lines 162-171). -/
structure CustomHttpsConfig where
  certificate_source : String
  azure_key_vault_certificate_secret_name : String
  azure_key_vault_certificate_secret_version : String
  azure_key_vault_certificate_vault_id : String
  deriving DecidableEq

/-- One entry of the `frontend_endpoint` collection
(fields read at validate.go lines 152-157). -/
structure FrontendEndpoint where
  name : String
  custom_https_provisioning_enabled : Bool
  custom_https_configuration : Option CustomHttpsConfig
  deriving DecidableEq

/-- The `forwarding_configuration` sub-block of a routing rule; only
`backend_pool_name` is read by the validator (validate.go line 70). -/
structure ForwardingConfiguration where
  backend_pool_name : String
  deriving DecidableEq

/-- One entry of the `routing_rule` collection.  The Go code reads
`redirect_configuration` and `forwarding_configuration` as lists and only
tests their length / first element, so presence is an `Option`; the
contents of a redirect block are never inspected. -/
structure RoutingRule where
  name : String
  frontend_endpoints : List String
  redirect_configuration : Option Unit
  forwarding_configuration : Option ForwardingConfiguration
  deriving DecidableEq

/-- One entry of the `backend_pool` collection
(fields read at validate.go lines 108-111). -/
structure BackendPool where
  name : String
  load_balancing_name : String
  health_probe_name : String
  deriving DecidableEq

/-- One entry of `backend_pool_load_balancing` or
`backend_pool_health_probe`; only `name` is read (lines 118, 137). -/
structure SettingsBlock where
  name : String
  deriving DecidableEq

/-- The configuration tree handed to the validator: the five collections
fetched from the resource diff at validate.go lines 38-42. -/
structure Config where
  routing_rule : List RoutingRule
  frontend_endpoint : List FrontendEndpoint
  backend_pool : List BackendPool
  backend_pool_load_balancing : List SettingsBlock
  backend_pool_health_probe : List SettingsBlock
  deriving DecidableEq

/-- The violations the validator can report, one constructor per
`fmt.Errorf` site in `FrontdoorSettings`, carrying the names that the Go
message interpolates.  `MissingRequiredCollection` carries the collection
name and, for the per-rule variant (line 102), the owning rule's name. -/
inductive Violation where
  | MissingRequiredCollection (collection : String) (owner : Option String)
  | MissingConfigurationBlock (owner : String)
  | ConflictingConfigurationBlocks (ruleName : String)
  | DanglingReference (owner : String) (reference : String)
  | InvalidTlsState (endpointName : String)
  | IncompleteTlsConfig (endpointName : String)
  | ExtraneousTlsConfig (endpointName : String)
  deriving DecidableEq

/-- Value of `frontdoor.CertificateSourceAzureKeyVault` from the Azure
SDK, compared against at validate.go line 164. -/
def CertificateSourceAzureKeyVault : String := "AzureKeyVault"

/-- Modelled from the spec: `helper.DoesBackendPoolExists` (package
`frontdoor/helper`) is not under src/; per the spec the validator
"resolve[s] its `backend_pool_name` against the backend-pool collection
by exact name match".  Returns whether some pool's name equals the
candidate. -/
def DoesBackendPoolExists (backendPoolName : String) (backendPools : List BackendPool) : Bool :=
  backendPools.any (fun p => p.name == backendPoolName)

/-- Modelled from the spec: `helper.AzureKeyVaultCertificateHasValues`
(package `frontdoor/helper`) is not under src/; per the spec, with the
key-vault certificate source "all three key-vault fields must be
non-empty" and with any other source "all three must be empty".  With
`matchAllKeys = true` it reports whether all three fields are non-empty,
with `matchAllKeys = false` whether any is non-empty. -/
def AzureKeyVaultCertificateHasValues (c : CustomHttpsConfig) (matchAllKeys : Bool) : Bool :=
  if matchAllKeys then
    c.azure_key_vault_certificate_secret_name != "" &&
    c.azure_key_vault_certificate_secret_version != "" &&
    c.azure_key_vault_certificate_vault_id != ""
  else
    c.azure_key_vault_certificate_secret_name != "" ||
    c.azure_key_vault_certificate_secret_version != "" ||
    c.azure_key_vault_certificate_vault_id != ""

/-- Inner loop at validate.go lines 88-95: linear scan of the configured
frontend endpoints for one matching name, with early exit on the first
match. -/
def frontendEndpointExists (name : String) (eps : List FrontendEndpoint) : Bool :=
  eps.any (fun e => e.name == name)

/-- Check 2 of the per-rule loop (validate.go lines 68-73): when a
forwarding configuration is present its `backend_pool_name` must resolve;
the error message names the rule and the pool. -/
def checkForwardingTarget (backendPools : List BackendPool) (routingRule : RoutingRule) : Option Violation :=
  match routingRule.forwarding_configuration with
  | some fc =>
    if DoesBackendPoolExists fc.backend_pool_name backendPools then none
    else some (Violation.DanglingReference routingRule.name fc.backend_pool_name)
  | none => none

/-- Check 3 of the per-rule loop (validate.go lines 76-103): a non-empty
`frontend_endpoints` list is scanned in order and the first name with no
matching configured endpoint is reported; an empty list is an error. -/
def checkRuleFrontends (configFrontendEndpoints : List FrontendEndpoint) (routingRule : RoutingRule) : Option Violation :=
  if routingRule.frontend_endpoints.isEmpty then
    some (Violation.MissingRequiredCollection "frontend_endpoints" (some routingRule.name))
  else
    match routingRule.frontend_endpoints.find? (fun n => !(frontendEndpointExists n configFrontendEndpoints)) with
    | some n => some (Violation.DanglingReference routingRule.name n)
    | none => none

/-- Body of the per-routing-rule loop (validate.go lines 49-104): check 0
(neither sub-block), check 1 (both sub-blocks), check 2 (forwarding
target), check 3 (frontend endpoint references), in that order,
returning the first violation. -/
def checkRoutingRule (configFrontendEndpoints : List FrontendEndpoint) (backendPools : List BackendPool) (routingRule : RoutingRule) : Option Violation :=
  if routingRule.redirect_configuration.isNone && routingRule.forwarding_configuration.isNone then
    some (Violation.MissingConfigurationBlock routingRule.name)
  else if routingRule.redirect_configuration.isSome && routingRule.forwarding_configuration.isSome then
    some (Violation.ConflictingConfigurationBlocks routingRule.name)
  else
    match checkForwardingTarget backendPools routingRule with
    | some v => some v
    | none => checkRuleFrontends configFrontendEndpoints routingRule

/-- First half of the per-backend-pool loop (validate.go lines 114-129):
only when the load-balancing settings collection is non-empty is
`load_balancing_name` resolved against it. -/
def checkLoadBalancing (loadBalancingSettings : List SettingsBlock) (backendPool : BackendPool) : Option Violation :=
  if loadBalancingSettings.isEmpty then none
  else if loadBalancingSettings.any (fun s => s.name == backendPool.load_balancing_name) then none
  else some (Violation.DanglingReference backendPool.name backendPool.load_balancing_name)

/-- Second half of the per-backend-pool loop (validate.go lines 131-148):
only when the health-probe settings collection is non-empty is
`health_probe_name` resolved against it. -/
def checkHealthProbe (healthProbeSettings : List SettingsBlock) (backendPool : BackendPool) : Option Violation :=
  if healthProbeSettings.isEmpty then none
  else if healthProbeSettings.any (fun s => s.name == backendPool.health_probe_name) then none
  else some (Violation.DanglingReference backendPool.name backendPool.health_probe_name)

/-- Body of the per-backend-pool loop (validate.go lines 107-149): the
load-balancing check runs before the health-probe check. -/
def checkBackendPool (loadBalancingSettings healthProbeSettings : List SettingsBlock) (backendPool : BackendPool) : Option Violation :=
  match checkLoadBalancing loadBalancingSettings backendPool with
  | some v => some v
  | none => checkHealthProbe healthProbeSettings backendPool

/-- Body of the per-frontend-endpoint TLS loop (validate.go lines
152-177): a present block with provisioning disabled is invalid; a
present block with provisioning enabled must have its key-vault fields
consistent with `certificate_source`; an absent block with provisioning
enabled is missing. -/
def checkFrontendEndpoint (configFrontend : FrontendEndpoint) : Option Violation :=
  match configFrontend.custom_https_configuration with
  | some chc =>
    if !configFrontend.custom_https_provisioning_enabled then
      some (Violation.InvalidTlsState configFrontend.name)
    else if chc.certificate_source == CertificateSourceAzureKeyVault then
      if !AzureKeyVaultCertificateHasValues chc true then
        some (Violation.IncompleteTlsConfig configFrontend.name)
      else none
    else
      if AzureKeyVaultCertificateHasValues chc false then
        some (Violation.ExtraneousTlsConfig configFrontend.name)
      else none
  | none =>
    if configFrontend.custom_https_provisioning_enabled then
      some (Violation.MissingConfigurationBlock configFrontend.name)
    else none

/-- The validator `FrontdoorSettings` (validate.go lines 37-180): the
endpoint-presence check, then the per-routing-rule loop, then the
per-backend-pool loop, then the per-frontend-endpoint TLS loop, each
fail-fast; `none` is success. -/
def FrontdoorSettings (d : Config) : Option Violation :=
  if d.frontend_endpoint.isEmpty then
    some (Violation.MissingRequiredCollection "frontend_endpoint" none)
  else
    match d.routing_rule.findSome? (checkRoutingRule d.frontend_endpoint d.backend_pool) with
    | some v => some v
    | none =>
      match d.backend_pool.findSome? (checkBackendPool d.backend_pool_load_balancing d.backend_pool_health_probe) with
      | some v => some v
      | none => d.frontend_endpoint.findSome? checkFrontendEndpoint

/-! Shared lemmas about the fail-fast scan structure. -/

/-- A scan returns the first hit: if everything before `x` yields `none`
and `x` yields `some b`, the whole scan yields `some b`. -/
theorem findSome_first {α β : Type} (f : α → Option β) (pre : List α) (x : α) (post : List α) (b : β)
    (hpre : ∀ a ∈ pre, f a = none) (hx : f x = some b) :
    List.findSome? f (pre ++ x :: post) = some b := by
  rw [List.findSome?_append, List.findSome?_eq_none_iff.mpr hpre]
  simp [List.findSome?_cons, hx]

/-- A search returns the first element satisfying the predicate: if
everything before `x` fails the predicate and `x` satisfies it, the
search returns `x`. -/
theorem find_first {α : Type} (p : α → Bool) (pre : List α) (x : α) (post : List α)
    (hpre : ∀ a ∈ pre, p a = false) (hx : p x = true) :
    List.find? p (pre ++ x :: post) = some x := by
  induction pre with
  | nil => simpa using List.find?_cons_of_pos post hx
  | cons a as ih =>
    have ha : p a = false := hpre a (by simp)
    rw [List.cons_append, List.find?_cons_of_neg _ (by simp [ha])]
    exact ih (fun a' h' => hpre a' (by simp [h']))

/-- Violations found in the per-routing-rule loop are returned by the
validator (the endpoint-presence check having passed). -/
theorem FrontdoorSettings_rule_phase (d : Config) (v : Violation)
    (hfe : d.frontend_endpoint ≠ [])
    (hr : List.findSome? (checkRoutingRule d.frontend_endpoint d.backend_pool) d.routing_rule = some v) :
    FrontdoorSettings d = some v := by
  have h0 : d.frontend_endpoint.isEmpty = false := List.isEmpty_eq_false.mpr hfe
  simp [FrontdoorSettings, h0, hr]

/-- Violations found in the per-backend-pool loop are returned by the
validator when the earlier phases pass. -/
theorem FrontdoorSettings_pool_phase (d : Config) (v : Violation)
    (hfe : d.frontend_endpoint ≠ [])
    (hr : List.findSome? (checkRoutingRule d.frontend_endpoint d.backend_pool) d.routing_rule = none)
    (hp : List.findSome? (checkBackendPool d.backend_pool_load_balancing d.backend_pool_health_probe) d.backend_pool = some v) :
    FrontdoorSettings d = some v := by
  have h0 : d.frontend_endpoint.isEmpty = false := List.isEmpty_eq_false.mpr hfe
  simp [FrontdoorSettings, h0, hr, hp]

/-- When the first three phases pass, the validator's verdict is that of
the per-frontend-endpoint TLS loop. -/
theorem FrontdoorSettings_endpoint_phase (d : Config)
    (hfe : d.frontend_endpoint ≠ [])
    (hr : List.findSome? (checkRoutingRule d.frontend_endpoint d.backend_pool) d.routing_rule = none)
    (hp : List.findSome? (checkBackendPool d.backend_pool_load_balancing d.backend_pool_health_probe) d.backend_pool = none) :
    FrontdoorSettings d = List.findSome? checkFrontendEndpoint d.frontend_endpoint := by
  have h0 : d.frontend_endpoint.isEmpty = false := List.isEmpty_eq_false.mpr hfe
  simp [FrontdoorSettings, h0, hr, hp]

/-- With a non-empty settings collection in which no entry's name equals
the pool's `load_balancing_name`, the load-balancing check reports the
dangling reference. -/
theorem checkLoadBalancing_dangling (lbs : List SettingsBlock) (pool : BackendPool)
    (hne : lbs ≠ [])
    (hall : ∀ s ∈ lbs, s.name ≠ pool.load_balancing_name) :
    checkLoadBalancing lbs pool = some (Violation.DanglingReference pool.name pool.load_balancing_name) := by
  have h0 : lbs.isEmpty = false := List.isEmpty_eq_false.mpr hne
  have h1 : lbs.any (fun s => s.name == pool.load_balancing_name) = false :=
    List.any_eq_false.mpr (fun s hs => by simp [hall s hs])
  simp [checkLoadBalancing, h0, h1]

/-- With a non-empty settings collection in which no entry's name equals
the pool's `health_probe_name`, the health-probe check reports the
dangling reference. -/
theorem checkHealthProbe_dangling (hps : List SettingsBlock) (pool : BackendPool)
    (hne : hps ≠ [])
    (hall : ∀ s ∈ hps, s.name ≠ pool.health_probe_name) :
    checkHealthProbe hps pool = some (Violation.DanglingReference pool.name pool.health_probe_name) := by
  have h0 : hps.isEmpty = false := List.isEmpty_eq_false.mpr hne
  have h1 : hps.any (fun s => s.name == pool.health_probe_name) = false :=
    List.any_eq_false.mpr (fun s hs => by simp [hall s hs])
  simp [checkHealthProbe, h0, h1]

/-- C1: for a backend pool, `load_balancing_name` is resolved against the
load-balancing-settings collection only when that collection is
non-empty: if it is non-empty and no entry's name matches, validation
fails with `DanglingReference` naming the pool and the unresolved name;
if it is empty, the load-balancing check raises no error even when the
name is set and dangling.  Symmetrically for `health_probe_name` against
the health-probe-settings collection.  The hypotheses state that the
pool's check is reached: the earlier fail-fast phases pass and every
pool declared before this one passes its checks. -/
theorem C1_pool_settings_resolution (d : Config) (pre post : List BackendPool) (pool : BackendPool)
    (hfe : d.frontend_endpoint ≠ [])
    (hrr : ∀ r ∈ d.routing_rule, checkRoutingRule d.frontend_endpoint d.backend_pool r = none)
    (hsplit : d.backend_pool = pre ++ pool :: post)
    (hpre : ∀ p ∈ pre, checkBackendPool d.backend_pool_load_balancing d.backend_pool_health_probe p = none) :
    (d.backend_pool_load_balancing ≠ [] →
      (∀ s ∈ d.backend_pool_load_balancing, s.name ≠ pool.load_balancing_name) →
      FrontdoorSettings d = some (Violation.DanglingReference pool.name pool.load_balancing_name)) ∧
    (d.backend_pool_load_balancing = [] →
      checkLoadBalancing d.backend_pool_load_balancing pool = none) ∧
    (d.backend_pool_health_probe ≠ [] →
      (∀ s ∈ d.backend_pool_health_probe, s.name ≠ pool.health_probe_name) →
      checkLoadBalancing d.backend_pool_load_balancing pool = none →
      FrontdoorSettings d = some (Violation.DanglingReference pool.name pool.health_probe_name)) ∧
    (d.backend_pool_health_probe = [] →
      checkHealthProbe d.backend_pool_health_probe pool = none) := by
  have hrnone : List.findSome? (checkRoutingRule d.frontend_endpoint d.backend_pool) d.routing_rule = none :=
    List.findSome?_eq_none_iff.mpr hrr
  refine ⟨fun hlb hall => ?_, fun hemp => by simp [checkLoadBalancing, hemp], fun hhp hall hlbok => ?_, fun hemp => by simp [checkHealthProbe, hemp]⟩
  · have hc : checkBackendPool d.backend_pool_load_balancing d.backend_pool_health_probe pool =
        some (Violation.DanglingReference pool.name pool.load_balancing_name) := by
      simp [checkBackendPool, checkLoadBalancing_dangling _ _ hlb hall]
    exact FrontdoorSettings_pool_phase d _ hfe hrnone
      (hsplit ▸ findSome_first _ pre pool post _ hpre hc)
  · have hc : checkBackendPool d.backend_pool_load_balancing d.backend_pool_health_probe pool =
        some (Violation.DanglingReference pool.name pool.health_probe_name) := by
      simp [checkBackendPool, hlbok, checkHealthProbe_dangling _ _ hhp hall]
    exact FrontdoorSettings_pool_phase d _ hfe hrnone
      (hsplit ▸ findSome_first _ pre pool post _ hpre hc)

/-- Configuration exercising C1: one healthy frontend endpoint, no
routing rules, one backend pool whose `load_balancing_name` dangles in a
non-empty load-balancing collection while the health-probe collection is
empty. -/
def cfgC1 : Config :=
  ⟨[], [⟨"fe1", false, none⟩], [⟨"bp1", "lb-miss", "hp-miss"⟩], [⟨"lb1"⟩], []⟩

/-- Witness for C1 at `cfgC1`: the dangling `load_balancing_name` is
reported, and the empty health-probe collection raises nothing. -/
theorem C1_pool_settings_resolution_witness :
    FrontdoorSettings cfgC1 = some (Violation.DanglingReference "bp1" "lb-miss") ∧
    checkHealthProbe ([] : List SettingsBlock) ⟨"bp1", "lb-miss", "hp-miss"⟩ = none := by
  have h := C1_pool_settings_resolution cfgC1 [] [] ⟨"bp1", "lb-miss", "hp-miss"⟩
    (by decide) (fun _ hr => nomatch hr) rfl (fun _ hp => nomatch hp)
  exact ⟨h.1 (by decide) (by decide), h.2.2.2 rfl⟩

/-- C8: a configuration whose `frontend_endpoint` collection is empty
fails with `MissingRequiredCollection`; the endpoint-presence check runs
first, so this verdict stands whatever else the configuration contains. -/
theorem C8_empty_frontend_collection (d : Config) (h : d.frontend_endpoint = []) :
    FrontdoorSettings d = some (Violation.MissingRequiredCollection "frontend_endpoint" none) := by
  simp [FrontdoorSettings, h]

/-- Configuration exercising C8: no frontend endpoints, while the
routing rule has conflicting blocks and a dangling pool reference and
the backend pool's settings names dangle. -/
def cfgC8 : Config :=
  ⟨[⟨"rr1", [], some (), some ⟨"bp-missing"⟩⟩],
   [],
   [⟨"bp1", "lb-missing", "hp-missing"⟩],
   [⟨"lb1"⟩],
   [⟨"hp1"⟩]⟩

/-- Witness for C8 at `cfgC8`: despite the other violations, the empty
endpoint collection is reported. -/
theorem C8_empty_frontend_collection_witness :
    FrontdoorSettings cfgC8 = some (Violation.MissingRequiredCollection "frontend_endpoint" none) :=
  C8_empty_frontend_collection cfgC8 rfl

/-- When a routing rule passes check 0 (not both blocks absent) and
check 1 (not both blocks present), its verdict is that of the forwarding
target check followed by the frontend-references check. -/
theorem checkRoutingRule_eq_of_blocks (fe : List FrontendEndpoint) (bp : List BackendPool) (rule : RoutingRule)
    (hnotmiss : ¬(rule.redirect_configuration = none ∧ rule.forwarding_configuration = none))
    (hnotconf : ¬(rule.redirect_configuration ≠ none ∧ rule.forwarding_configuration ≠ none)) :
    checkRoutingRule fe bp rule =
      match checkForwardingTarget bp rule with
      | some v => some v
      | none => checkRuleFrontends fe rule := by
  have h1 : (rule.redirect_configuration.isNone && rule.forwarding_configuration.isNone) = false := by
    cases hr : rule.redirect_configuration <;> cases hf : rule.forwarding_configuration <;> simp_all
  have h2 : (rule.redirect_configuration.isSome && rule.forwarding_configuration.isSome) = false := by
    cases hr : rule.redirect_configuration <;> cases hf : rule.forwarding_configuration <;> simp_all
  simp [checkRoutingRule, h1, h2]

/-- C6: a routing rule with neither a `redirect_configuration` nor a
`forwarding_configuration` is reported with `MissingConfigurationBlock`
naming the rule; because this is the rule's first check, the verdict is
independent of the rule's `frontend_endpoints` and of the backend pools,
so it precedes the conflicting-blocks and reference-resolution checks on
the same rule.  The hypotheses state that the rule is reached: the
endpoint collection is non-empty and every earlier rule passes. -/
theorem C6_rule_missing_blocks (d : Config) (pre post : List RoutingRule) (rule : RoutingRule)
    (hfe : d.frontend_endpoint ≠ [])
    (hsplit : d.routing_rule = pre ++ rule :: post)
    (hpre : ∀ r ∈ pre, checkRoutingRule d.frontend_endpoint d.backend_pool r = none)
    (hred : rule.redirect_configuration = none)
    (hfwd : rule.forwarding_configuration = none) :
    FrontdoorSettings d = some (Violation.MissingConfigurationBlock rule.name) := by
  have hc : checkRoutingRule d.frontend_endpoint d.backend_pool rule =
      some (Violation.MissingConfigurationBlock rule.name) := by
    simp [checkRoutingRule, hred, hfwd]
  exact FrontdoorSettings_rule_phase d _ hfe
    (hsplit ▸ findSome_first _ pre rule post _ hpre hc)

/-- Configuration exercising C6: the rule has neither sub-block, an
empty `frontend_endpoints` list and the pool collection is empty, yet
the missing-block verdict wins. -/
def cfgC6 : Config :=
  ⟨[⟨"rr1", [], none, none⟩], [⟨"fe1", false, none⟩], [], [], []⟩

/-- Witness for C6 at `cfgC6`. -/
theorem C6_rule_missing_blocks_witness :
    FrontdoorSettings cfgC6 = some (Violation.MissingConfigurationBlock "rr1") :=
  C6_rule_missing_blocks cfgC6 [] [] ⟨"rr1", [], none, none⟩
    (by decide) rfl (fun _ hr => nomatch hr) rfl rfl

/-- C7: a routing rule whose forwarding configuration names a backend
pool that matches no `BackendPool.name` under exact (case-sensitive)
string equality is reported with `DanglingReference` carrying both the
rule's name and the unresolved pool name; nothing is assumed about the
rule's `frontend_endpoints`, so the verdict precedes those checks.  The
hypotheses state that the rule is reached and that it passes its block
checks (forwarding present, redirect absent). -/
theorem C7_forwarding_backend_pool (d : Config) (pre post : List RoutingRule)
    (rule : RoutingRule) (fc : ForwardingConfiguration)
    (hfe : d.frontend_endpoint ≠ [])
    (hsplit : d.routing_rule = pre ++ rule :: post)
    (hpre : ∀ r ∈ pre, checkRoutingRule d.frontend_endpoint d.backend_pool r = none)
    (hfc : rule.forwarding_configuration = some fc)
    (hred : rule.redirect_configuration = none)
    (hmiss : ∀ p ∈ d.backend_pool, p.name ≠ fc.backend_pool_name) :
    FrontdoorSettings d = some (Violation.DanglingReference rule.name fc.backend_pool_name) := by
  have hdbpe : DoesBackendPoolExists fc.backend_pool_name d.backend_pool = false :=
    List.any_eq_false.mpr (fun p hp => by simp [hmiss p hp])
  have htarget : checkForwardingTarget d.backend_pool rule =
      some (Violation.DanglingReference rule.name fc.backend_pool_name) := by
    simp [checkForwardingTarget, hfc, hdbpe]
  have hc : checkRoutingRule d.frontend_endpoint d.backend_pool rule =
      some (Violation.DanglingReference rule.name fc.backend_pool_name) := by
    rw [checkRoutingRule_eq_of_blocks _ _ _ (by simp [hfc]) (by simp [hred]), htarget]
  exact FrontdoorSettings_rule_phase d _ hfe
    (hsplit ▸ findSome_first _ pre rule post _ hpre hc)

/-- Configuration exercising C7 (end-to-end example 2 of the spec): rule
`rr1` forwards to `bp-missing` while only `bp1` exists; the rule's
frontend list references `fe1`, which exists, but the dangling pool is
reported first. -/
def cfgC7 : Config :=
  ⟨[⟨"rr1", ["fe-dangling"], none, some ⟨"bp-missing"⟩⟩],
   [⟨"fe1", false, none⟩],
   [⟨"bp1", "lb1", "hp1"⟩],
   [⟨"lb1"⟩],
   [⟨"hp1"⟩]⟩

/-- Witness for C7 at `cfgC7`: the verdict names `rr1` and `bp-missing`
even though the rule's own frontend reference also dangles, showing the
pool check runs first. -/
theorem C7_forwarding_backend_pool_witness :
    FrontdoorSettings cfgC7 = some (Violation.DanglingReference "rr1" "bp-missing") :=
  C7_forwarding_backend_pool cfgC7 [] [] ⟨"rr1", ["fe-dangling"], none, some ⟨"bp-missing"⟩⟩
    ⟨"bp-missing"⟩ (by decide) rfl (fun _ hr => nomatch hr) rfl rfl (by decide)

/-- C2: a routing rule (that is reached and passes its block and
forwarding-target checks) must list at least one frontend endpoint,
otherwise `MissingRequiredCollection` names the rule; and when the list
is non-empty, the first listed name (in declared order) that matches no
`FrontendEndpoint.name` is reported with `DanglingReference`. -/
theorem C2_rule_frontend_references (d : Config) (pre post : List RoutingRule) (rule : RoutingRule)
    (hfe : d.frontend_endpoint ≠ [])
    (hsplit : d.routing_rule = pre ++ rule :: post)
    (hpre : ∀ r ∈ pre, checkRoutingRule d.frontend_endpoint d.backend_pool r = none)
    (hnotmiss : ¬(rule.redirect_configuration = none ∧ rule.forwarding_configuration = none))
    (hnotconf : ¬(rule.redirect_configuration ≠ none ∧ rule.forwarding_configuration ≠ none))
    (hfwd : ∀ fc, rule.forwarding_configuration = some fc →
      DoesBackendPoolExists fc.backend_pool_name d.backend_pool = true) :
    (rule.frontend_endpoints = [] →
      FrontdoorSettings d = some (Violation.MissingRequiredCollection "frontend_endpoints" (some rule.name))) ∧
    (∀ npre n npost, rule.frontend_endpoints = npre ++ n :: npost →
      (∀ m ∈ npre, frontendEndpointExists m d.frontend_endpoint = true) →
      frontendEndpointExists n d.frontend_endpoint = false →
      FrontdoorSettings d = some (Violation.DanglingReference rule.name n)) := by
  have htarget : checkForwardingTarget d.backend_pool rule = none := by
    unfold checkForwardingTarget
    cases hfcase : rule.forwarding_configuration with
    | none => rfl
    | some fc => simp [hfwd fc hfcase]
  have hrule : checkRoutingRule d.frontend_endpoint d.backend_pool rule =
      checkRuleFrontends d.frontend_endpoint rule := by
    rw [checkRoutingRule_eq_of_blocks _ _ _ hnotmiss hnotconf, htarget]
  constructor
  · intro hempty
    have hc : checkRoutingRule d.frontend_endpoint d.backend_pool rule =
        some (Violation.MissingRequiredCollection "frontend_endpoints" (some rule.name)) := by
      rw [hrule]; simp [checkRuleFrontends, hempty]
    exact FrontdoorSettings_rule_phase d _ hfe
      (hsplit ▸ findSome_first _ pre rule post _ hpre hc)
  · intro npre n npost hns hok hbad
    have hfind : List.find? (fun m => !(frontendEndpointExists m d.frontend_endpoint))
        rule.frontend_endpoints = some n := by
      rw [hns]
      exact find_first _ npre n npost (fun m hm => by simp [hok m hm]) (by simp [hbad])
    have hc : checkRoutingRule d.frontend_endpoint d.backend_pool rule =
        some (Violation.DanglingReference rule.name n) := by
      rw [hrule]
      have hne : rule.frontend_endpoints.isEmpty = false :=
        List.isEmpty_eq_false.mpr (by rw [hns]; exact List.append_ne_nil_of_right_ne_nil npre (by simp))
      simp [checkRuleFrontends, hne, hfind]
    exact FrontdoorSettings_rule_phase d _ hfe
      (hsplit ▸ findSome_first _ pre rule post _ hpre hc)

/-- Configuration exercising C2: rule `rr1` lists `fe1` (which resolves)
then `fe-miss-1` and `fe-miss-2` (both dangling); the first dangling
name in order is reported. -/
def cfgC2 : Config :=
  ⟨[⟨"rr1", ["fe1", "fe-miss-1", "fe-miss-2"], some (), none⟩],
   [⟨"fe1", false, none⟩],
   [], [], []⟩

/-- Witness for C2 at `cfgC2`: the first unresolved name `fe-miss-1` is
the one reported. -/
theorem C2_rule_frontend_references_witness :
    FrontdoorSettings cfgC2 = some (Violation.DanglingReference "rr1" "fe-miss-1") :=
  (C2_rule_frontend_references cfgC2 [] [] ⟨"rr1", ["fe1", "fe-miss-1", "fe-miss-2"], some (), none⟩
    (by decide) rfl (fun _ hr => nomatch hr) (by simp) (by simp)
    (fun _ hfc => nomatch hfc)).2
    ["fe1"] "fe-miss-1" ["fe-miss-2"] rfl (by decide) (by decide)

/-- C4: for a frontend endpoint (reached after the first three fail-fast
phases pass and all endpoints declared before it pass the TLS check): a
present `custom_https_configuration` block with
`custom_https_provisioning_enabled = false` is reported with
`InvalidTlsState` naming the endpoint, and an absent block with
`custom_https_provisioning_enabled = true` with
`MissingConfigurationBlock` naming the endpoint. -/
theorem C4_tls_presence_state (d : Config) (pre post : List FrontendEndpoint) (ep : FrontendEndpoint)
    (hsplit : d.frontend_endpoint = pre ++ ep :: post)
    (hrr : ∀ r ∈ d.routing_rule, checkRoutingRule d.frontend_endpoint d.backend_pool r = none)
    (hbp : ∀ p ∈ d.backend_pool, checkBackendPool d.backend_pool_load_balancing d.backend_pool_health_probe p = none)
    (hpre : ∀ e ∈ pre, checkFrontendEndpoint e = none) :
    (∀ chc, ep.custom_https_configuration = some chc →
      ep.custom_https_provisioning_enabled = false →
      FrontdoorSettings d = some (Violation.InvalidTlsState ep.name)) ∧
    (ep.custom_https_configuration = none →
      ep.custom_https_provisioning_enabled = true →
      FrontdoorSettings d = some (Violation.MissingConfigurationBlock ep.name)) := by
  have hfe : d.frontend_endpoint ≠ [] := by
    rw [hsplit]; exact List.append_ne_nil_of_right_ne_nil pre (by simp)
  have hphase := FrontdoorSettings_endpoint_phase d hfe
    (List.findSome?_eq_none_iff.mpr hrr) (List.findSome?_eq_none_iff.mpr hbp)
  constructor
  · intro chc hchc hen
    have hc : checkFrontendEndpoint ep = some (Violation.InvalidTlsState ep.name) := by
      simp [checkFrontendEndpoint, hchc, hen]
    rw [hphase, hsplit]
    exact findSome_first _ pre ep post _ hpre hc
  · intro hchc hen
    have hc : checkFrontendEndpoint ep = some (Violation.MissingConfigurationBlock ep.name) := by
      simp [checkFrontendEndpoint, hchc, hen]
    rw [hphase, hsplit]
    exact findSome_first _ pre ep post _ hpre hc

/-- Configuration exercising the first half of C4: endpoint `fe1` has a
TLS block but provisioning is disabled. -/
def cfgC4a : Config :=
  ⟨[], [⟨"fe1", false, some ⟨"FrontDoor", "", "", ""⟩⟩], [], [], []⟩

/-- Configuration exercising the second half of C4: endpoint `fe2` has
provisioning enabled but no TLS block. -/
def cfgC4b : Config :=
  ⟨[], [⟨"fe2", true, none⟩], [], [], []⟩

/-- Witness for C4 at `cfgC4a` and `cfgC4b`. -/
theorem C4_tls_presence_state_witness :
    FrontdoorSettings cfgC4a = some (Violation.InvalidTlsState "fe1") ∧
    FrontdoorSettings cfgC4b = some (Violation.MissingConfigurationBlock "fe2") :=
  ⟨(C4_tls_presence_state cfgC4a [] [] ⟨"fe1", false, some ⟨"FrontDoor", "", "", ""⟩⟩
      rfl (fun _ hr => nomatch hr) (fun _ hp => nomatch hp) (fun _ he => nomatch he)).1
      ⟨"FrontDoor", "", "", ""⟩ rfl rfl,
   (C4_tls_presence_state cfgC4b [] [] ⟨"fe2", true, none⟩
      rfl (fun _ hr => nomatch hr) (fun _ hp => nomatch hp) (fun _ he => nomatch he)).2
      rfl rfl⟩

/-- C3: for a frontend endpoint whose TLS block is present and whose
provisioning flag is enabled (and which is reached, the earlier phases
and endpoints passing): with `certificate_source = "AzureKeyVault"` and
any of the three key-vault fields empty, validation fails with
`IncompleteTlsConfig` naming the endpoint; with any other source and any
of the three fields non-empty, with `ExtraneousTlsConfig` naming the
endpoint. -/
theorem C3_tls_keyvault_fields (d : Config) (pre post : List FrontendEndpoint)
    (ep : FrontendEndpoint) (chc : CustomHttpsConfig)
    (hsplit : d.frontend_endpoint = pre ++ ep :: post)
    (hrr : ∀ r ∈ d.routing_rule, checkRoutingRule d.frontend_endpoint d.backend_pool r = none)
    (hbp : ∀ p ∈ d.backend_pool, checkBackendPool d.backend_pool_load_balancing d.backend_pool_health_probe p = none)
    (hpre : ∀ e ∈ pre, checkFrontendEndpoint e = none)
    (hchc : ep.custom_https_configuration = some chc)
    (hen : ep.custom_https_provisioning_enabled = true) :
    (chc.certificate_source = CertificateSourceAzureKeyVault →
      (chc.azure_key_vault_certificate_secret_name = "" ∨
       chc.azure_key_vault_certificate_secret_version = "" ∨
       chc.azure_key_vault_certificate_vault_id = "") →
      FrontdoorSettings d = some (Violation.IncompleteTlsConfig ep.name)) ∧
    (chc.certificate_source ≠ CertificateSourceAzureKeyVault →
      (chc.azure_key_vault_certificate_secret_name ≠ "" ∨
       chc.azure_key_vault_certificate_secret_version ≠ "" ∨
       chc.azure_key_vault_certificate_vault_id ≠ "") →
      FrontdoorSettings d = some (Violation.ExtraneousTlsConfig ep.name)) := by
  have hfe : d.frontend_endpoint ≠ [] := by
    rw [hsplit]; exact List.append_ne_nil_of_right_ne_nil pre (by simp)
  have hphase := FrontdoorSettings_endpoint_phase d hfe
    (List.findSome?_eq_none_iff.mpr hrr) (List.findSome?_eq_none_iff.mpr hbp)
  constructor
  · intro hsrc hempty
    have hv : AzureKeyVaultCertificateHasValues chc true = false := by
      rcases hempty with h | h | h <;> simp [AzureKeyVaultCertificateHasValues, h]
    have hc : checkFrontendEndpoint ep = some (Violation.IncompleteTlsConfig ep.name) := by
      simp [checkFrontendEndpoint, hchc, hen, hsrc, hv]
    rw [hphase, hsplit]
    exact findSome_first _ pre ep post _ hpre hc
  · intro hsrc hfull
    have hv : AzureKeyVaultCertificateHasValues chc false = true := by
      rcases hfull with h | h | h <;> simp [AzureKeyVaultCertificateHasValues, h]
    have hsrcb : (chc.certificate_source == CertificateSourceAzureKeyVault) = false := by
      simp [hsrc]
    have hc : checkFrontendEndpoint ep = some (Violation.ExtraneousTlsConfig ep.name) := by
      simp [checkFrontendEndpoint, hchc, hen, hsrcb, hv]
    rw [hphase, hsplit]
    exact findSome_first _ pre ep post _ hpre hc

/-- Configuration exercising the first half of C3 (end-to-end example 3
of the spec): key-vault source with an empty secret name. -/
def cfgC3a : Config :=
  ⟨[], [⟨"fe1", true, some ⟨"AzureKeyVault", "", "v1", "vault1"⟩⟩], [], [], []⟩

/-- Configuration exercising the second half of C3: a non-key-vault
source with a populated key-vault field. -/
def cfgC3b : Config :=
  ⟨[], [⟨"fe1", true, some ⟨"FrontDoor", "", "", "vault1"⟩⟩], [], [], []⟩

/-- Witness for C3 at `cfgC3a` and `cfgC3b`. -/
theorem C3_tls_keyvault_fields_witness :
    FrontdoorSettings cfgC3a = some (Violation.IncompleteTlsConfig "fe1") ∧
    FrontdoorSettings cfgC3b = some (Violation.ExtraneousTlsConfig "fe1") :=
  ⟨(C3_tls_keyvault_fields cfgC3a [] [] ⟨"fe1", true, some ⟨"AzureKeyVault", "", "v1", "vault1"⟩⟩
      ⟨"AzureKeyVault", "", "v1", "vault1"⟩ rfl (fun _ hr => nomatch hr)
      (fun _ hp => nomatch hp) (fun _ he => nomatch he) rfl rfl).1
      rfl (Or.inl rfl),
   (C3_tls_keyvault_fields cfgC3b [] [] ⟨"fe1", true, some ⟨"FrontDoor", "", "", "vault1"⟩⟩
      ⟨"FrontDoor", "", "", "vault1"⟩ rfl (fun _ hr => nomatch hr)
      (fun _ hp => nomatch hp) (fun _ he => nomatch he) rfl rfl).2
      (by decide) (Or.inr (Or.inr (by decide)))⟩

/-- Configuration refuting C5 as stated: rule `r1` (declared first) has
neither sub-block, rule `r2` has both; the frontend collection is
non-empty. -/
def cfgC5 : Config :=
  ⟨[⟨"r1", ["fe1"], none, none⟩, ⟨"r2", ["fe1"], some (), some ⟨"bp1"⟩⟩],
   [⟨"fe1", false, none⟩], [], [], []⟩

/-- C5 counterexample: `cfgC5` has a non-empty frontend-endpoint
collection and contains a routing rule (`r2`, the only one) with both
sub-blocks present, yet validation reports `MissingConfigurationBlock`
for the earlier rule `r1` — not `ConflictingConfigurationBlocks` naming
any rule — because the validator is fail-fast across rules. -/
theorem C5_counterexample :
    cfgC5.frontend_endpoint ≠ [] ∧
    (∃ r ∈ cfgC5.routing_rule,
      r.redirect_configuration.isSome = true ∧ r.forwarding_configuration.isSome = true) ∧
    FrontdoorSettings cfgC5 = some (Violation.MissingConfigurationBlock "r1") ∧
    (∀ n, FrontdoorSettings cfgC5 ≠ some (Violation.ConflictingConfigurationBlocks n)) := by
  have h3 : FrontdoorSettings cfgC5 = some (Violation.MissingConfigurationBlock "r1") := by decide
  refine ⟨by decide, by decide, h3, ?_⟩
  intro n h
  rw [h3] at h
  exact Violation.noConfusion (Option.some.inj h)

/-- C5 amended: in a configuration with a non-empty frontend-endpoint
collection, a routing rule with both sub-blocks present is reported with
`ConflictingConfigurationBlocks` naming it, provided every rule declared
before it passes all its per-rule checks (so it is the first such rule);
nothing is assumed about the rule's own forwarding target or frontend
references, nor about later rules. -/
theorem C5_conflicting_blocks_amended (d : Config) (pre post : List RoutingRule) (rule : RoutingRule)
    (hfe : d.frontend_endpoint ≠ [])
    (hsplit : d.routing_rule = pre ++ rule :: post)
    (hpre : ∀ r ∈ pre, checkRoutingRule d.frontend_endpoint d.backend_pool r = none)
    (hred : rule.redirect_configuration.isSome = true)
    (hfwd : rule.forwarding_configuration.isSome = true) :
    FrontdoorSettings d = some (Violation.ConflictingConfigurationBlocks rule.name) := by
  obtain ⟨a, ha⟩ := Option.isSome_iff_exists.mp hred
  obtain ⟨b, hb⟩ := Option.isSome_iff_exists.mp hfwd
  have hc : checkRoutingRule d.frontend_endpoint d.backend_pool rule =
      some (Violation.ConflictingConfigurationBlocks rule.name) := by
    simp [checkRoutingRule, ha, hb]
  exact FrontdoorSettings_rule_phase d _ hfe
    (hsplit ▸ findSome_first _ pre rule post _ hpre hc)

/-- Configuration exercising the amended C5: `r0` is a valid
redirect-only rule, `r2` has both sub-blocks (with a forwarding target
that does not even resolve, showing the conflict check fires first). -/
def cfgC5w : Config :=
  ⟨[⟨"r0", ["fe1"], some (), none⟩, ⟨"r2", ["fe1"], some (), some ⟨"bp-missing"⟩⟩],
   [⟨"fe1", false, none⟩], [], [], []⟩

/-- Witness for the amended C5 at `cfgC5w`. -/
theorem C5_conflicting_blocks_amended_witness :
    FrontdoorSettings cfgC5w = some (Violation.ConflictingConfigurationBlocks "r2") :=
  C5_conflicting_blocks_amended cfgC5w [⟨"r0", ["fe1"], some (), none⟩] []
    ⟨"r2", ["fe1"], some (), some ⟨"bp-missing"⟩⟩
    (by decide) rfl (by decide) rfl rfl

/-- C9: the validator is a total function on every well-typed
configuration tree — it returns either success (`none`) or exactly one
violation (`some v`), and a configuration whose optional collections are
all empty and whose endpoint carries no optional TLS block validates
successfully: absent optional data is treated as absent, not as an
error.  (Freedom from panics holds by construction: the embedding is a
total function over the typed configuration, which is the shape the Go
code is contractually guaranteed to receive.) -/
theorem C9_validator_total (d : Config) :
    (FrontdoorSettings d = none ∨ ∃ v, FrontdoorSettings d = some v) ∧
    (∀ epName, FrontdoorSettings ⟨[], [⟨epName, false, none⟩], [], [], []⟩ = none) := by
  constructor
  · cases h : FrontdoorSettings d with
    | none => exact Or.inl rfl
    | some v => exact Or.inr ⟨v, rfl⟩
  · intro epName
    rfl

/-- C10: every reference lookup succeeds as soon as some entry of the
target collection bears the referenced name — no lookup requires the
name to be unique — so duplicated names in the target collection never
prevent a reference from resolving: routing-rule frontend-endpoint
names, `backend_pool_name`, `load_balancing_name` and
`health_probe_name` alike. -/
theorem C10_lookup_needs_no_uniqueness (refName : String) (eps : List FrontendEndpoint)
    (pools : List BackendPool) (lbs hps : List SettingsBlock) (pool : BackendPool) :
    ((∃ e ∈ eps, e.name = refName) → frontendEndpointExists refName eps = true) ∧
    ((∃ p ∈ pools, p.name = refName) → DoesBackendPoolExists refName pools = true) ∧
    ((∃ s ∈ lbs, s.name = pool.load_balancing_name) → checkLoadBalancing lbs pool = none) ∧
    ((∃ s ∈ hps, s.name = pool.health_probe_name) → checkHealthProbe hps pool = none) := by
  refine ⟨?_, ?_, ?_, ?_⟩
  · rintro ⟨e, he, hn⟩
    exact List.any_eq_true.mpr ⟨e, he, by simp [hn]⟩
  · rintro ⟨p, hp, hn⟩
    exact List.any_eq_true.mpr ⟨p, hp, by simp [hn]⟩
  · rintro ⟨s, hs, hn⟩
    have hany : lbs.any (fun x => x.name == pool.load_balancing_name) = true :=
      List.any_eq_true.mpr ⟨s, hs, by simp [hn]⟩
    simp [checkLoadBalancing, hany]
  · rintro ⟨s, hs, hn⟩
    have hany : hps.any (fun x => x.name == pool.health_probe_name) = true :=
      List.any_eq_true.mpr ⟨s, hs, by simp [hn]⟩
    simp [checkHealthProbe, hany]

/-- Witness for C10 with duplicated names everywhere: two endpoints
named `fe`, two pools named `bp`, duplicated load-balancing blocks named
`lb` and health-probe blocks named `hp`; all four lookups succeed for a
reference to the duplicated name. -/
theorem C10_lookup_needs_no_uniqueness_witness :
    frontendEndpointExists "fe" [⟨"fe", false, none⟩, ⟨"fe", true, none⟩] = true ∧
    DoesBackendPoolExists "bp" [⟨"bp", "lb", "hp"⟩, ⟨"bp", "lb2", "hp2"⟩] = true ∧
    checkLoadBalancing [⟨"lb"⟩, ⟨"lb"⟩] ⟨"bp", "lb", "hp"⟩ = none ∧
    checkHealthProbe [⟨"hp"⟩, ⟨"hp"⟩] ⟨"bp", "lb", "hp"⟩ = none := by
  have h1 := C10_lookup_needs_no_uniqueness "fe" [⟨"fe", false, none⟩, ⟨"fe", true, none⟩]
    [⟨"bp", "lb", "hp"⟩, ⟨"bp", "lb2", "hp2"⟩] [⟨"lb"⟩, ⟨"lb"⟩] [⟨"hp"⟩, ⟨"hp"⟩]
    ⟨"bp", "lb", "hp"⟩
  have h2 := C10_lookup_needs_no_uniqueness "bp" [⟨"fe", false, none⟩, ⟨"fe", true, none⟩]
    [⟨"bp", "lb", "hp"⟩, ⟨"bp", "lb2", "hp2"⟩] [⟨"lb"⟩, ⟨"lb"⟩] [⟨"hp"⟩, ⟨"hp"⟩]
    ⟨"bp", "lb", "hp"⟩
  exact ⟨h1.1 (by decide), h2.2.1 (by decide), h1.2.2.1 (by decide), h1.2.2.2 (by decide)⟩

end Frontdoor
